import Mathlib

/-!
# Verification of the e-commerce data-pipeline validation core

Shallow embedding of the decision engine of the pipeline's validation layer:
change detection, sampling selection, result caching, threshold evaluation,
severity classification and alert-history pruning, as implemented in
`validation_optimization.py` and `monitoring_alerts.py`.

Conventions of the embedding:
* Python floats are modelled as rationals (`ℚ`), Python ints as `ℤ`/`ℕ`.
* Python dicts that are used as keyed stores are modelled as association
  lists in insertion order (`List (key × value)`); `dict` lookup is
  `List.lookup`.
* A Python function that can return `None` is modelled with `Option`;
  a call that raises at runtime is modelled with `Except String`.
-/

namespace Pipeline

/-! ## Change detection (`ValidationOptimizer._should_validate`) -/

/-- The `selective_validation` section of the optimizer configuration
(`DEFAULT_CONFIG["optimization"]["selective_validation"]`). -/
structure SelectiveConfig where
  enabled : Bool
  check_data_hash : Bool
  check_schema_changes : Bool
  check_row_count_changes : Bool
  row_count_threshold : ℚ
  skip_unchanged_data : Bool
deriving Repr, DecidableEq

/-- The default selective-validation configuration from `DEFAULT_CONFIG`. -/
def defaultSelectiveConfig : SelectiveConfig :=
  { enabled := true
    check_data_hash := true
    check_schema_changes := true
    check_row_count_changes := true
    row_count_threshold := 5 / 100
    skip_unchanged_data := true }

/-- The internal key built by `_should_validate`: `f"{layer}_{dataset}"`. -/
def datasetKey (layer dataset : String) : String :=
  layer ++ "_" ++ dataset

/-- Embedding of the row-count block of `_should_validate`
(lines 245-261).  Result `some true` models the early `return True`
(change above threshold, or previous row count is 0); `none` models
falling through to the schema and data-hash checks.  The block never
returns `False`. -/
def rowCountCheck (cfg : SelectiveConfig) (rowCounts : List (String × ℕ))
    (key : String) (currentRowCount : ℕ) : Option Bool :=
  if cfg.check_row_count_changes then
    match rowCounts.lookup key with
    | some previous =>
        if previous > 0 then
          -- change_percent = abs(current - previous) / previous
          let changePercent : ℚ :=
            |((currentRowCount : ℚ) - (previous : ℚ))| / (previous : ℚ)
          if changePercent ≤ cfg.row_count_threshold then none else some true
        else some true
    | none => none
  else none

/-- Embedding of `ValidationOptimizer._should_validate`.

The dataframe argument of the Python method is represented by the three
values the method derives from it: `df.count()` and the two hashes
computed by `_compute_schema_hash` / `_compute_data_hash` (each of which
returns `None` — here `Option.none` — when hashing raises).  The mutable
dictionaries `self.row_counts`, `self.schema_hashes`, `self.data_hashes`
are passed explicitly. -/
def shouldValidate (cfg : SelectiveConfig)
    (rowCounts : List (String × ℕ))
    (schemaHashes dataHashes : List (String × Option String))
    (layer dataset : String)
    (currentRowCount : ℕ)
    (currentSchemaHash currentDataHash : Option String) : Bool :=
  if !cfg.enabled then true
  else
    let key := datasetKey layer dataset
    match rowCountCheck cfg rowCounts key currentRowCount with
    | some b => b
    | none =>
        -- schema change check (lines 264-272)
        let schemaForces : Bool :=
          cfg.check_schema_changes &&
            (match schemaHashes.lookup key with
             | some previous => currentSchemaHash != previous
             | none => false)
        -- data hash change check (lines 275-283)
        let dataForces : Bool :=
          cfg.check_data_hash &&
            (match dataHashes.lookup key with
             | some previous => currentDataHash != previous
             | none => false)
        if schemaForces then true
        else if dataForces then true
        else if cfg.skip_unchanged_data then false
        else true

/-- The row-count block of `_should_validate` either forces validation or
falls through; it never produces a skip on its own. -/
theorem rowCountCheck_ne_some_false (cfg : SelectiveConfig)
    (rowCounts : List (String × ℕ)) (key : String) (n : ℕ) :
    rowCountCheck cfg rowCounts key n ≠ some false := by
  unfold rowCountCheck
  split
  · cases rowCounts.lookup key with
    | none => simp
    | some previous =>
        simp only
        split
        · split <;> simp
        · simp
  · simp

/-- If the row-count block falls through with a positive stored count and
the check enabled, the relative change is within the threshold. -/
theorem rowCountCheck_none_iff (cfg : SelectiveConfig)
    (rowCounts : List (String × ℕ)) (key : String) (n prev : ℕ)
    (hrc : cfg.check_row_count_changes = true)
    (hprev : rowCounts.lookup key = some prev) (hpos : 0 < prev) :
    rowCountCheck cfg rowCounts key n = none ↔
      |((n : ℚ) - (prev : ℚ))| / (prev : ℚ) ≤ cfg.row_count_threshold := by
  unfold rowCountCheck
  rw [if_pos hrc, hprev]
  simp only [hpos, if_pos]
  split <;> simp_all

end Pipeline

namespace Pipeline

/-- **C1** (cold start, code bug): with the default configuration and no
previous fingerprint recorded for the key (`row_counts`, `schema_hashes`
and `data_hashes` all empty), `_should_validate` returns `False` (skip),
not `True`: none of the three membership checks fires, and the
`skip_unchanged_data` fall-through skips a dataset that has never been
validated. -/
theorem shouldValidate_cold_start_skips :
    shouldValidate defaultSelectiveConfig [] [] [] "bronze" "orders" 1000
      (some "schemahash") (some "datahash") = false := by decide

/-- **C2** (skip correctness): with a previously recorded fingerprint with
positive row count and selective validation, all three change checks and
`skip_unchanged_data` enabled, `_should_validate` returns skip (`false`)
exactly when the relative row-count change is within the threshold, the
schema hash is unchanged and the data hash is unchanged; it returns
validate (`true`) as soon as any one of the three differs. -/
theorem shouldValidate_skip_correctness (cfg : SelectiveConfig)
    (rowCounts : List (String × ℕ))
    (schemaHashes dataHashes : List (String × Option String))
    (layer dataset : String) (currentRowCount prevCount : ℕ)
    (prevSchema prevData currentSchemaHash currentDataHash : Option String)
    (hen : cfg.enabled = true)
    (hrc : cfg.check_row_count_changes = true)
    (hsc : cfg.check_schema_changes = true)
    (hdc : cfg.check_data_hash = true)
    (hsk : cfg.skip_unchanged_data = true)
    (hprev : rowCounts.lookup (datasetKey layer dataset) = some prevCount)
    (hpos : 0 < prevCount)
    (hps : schemaHashes.lookup (datasetKey layer dataset) = some prevSchema)
    (hpd : dataHashes.lookup (datasetKey layer dataset) = some prevData) :
    shouldValidate cfg rowCounts schemaHashes dataHashes layer dataset
        currentRowCount currentSchemaHash currentDataHash = false ↔
      (|((currentRowCount : ℚ) - (prevCount : ℚ))| / (prevCount : ℚ)
          ≤ cfg.row_count_threshold
        ∧ currentSchemaHash = prevSchema ∧ currentDataHash = prevData) := by
  unfold shouldValidate
  rw [hen]
  simp only [Bool.not_true, Bool.false_eq_true, if_false]
  rcases hcase : rowCountCheck cfg rowCounts (datasetKey layer dataset)
      currentRowCount with _ | b
  · rw [rowCountCheck_none_iff cfg rowCounts _ currentRowCount prevCount hrc
      hprev hpos] at hcase
    simp only [hps, hpd, hsc, hdc, hsk]
    by_cases hs : currentSchemaHash = prevSchema <;>
      by_cases hd : currentDataHash = prevData <;>
      simp [hs, hd, hcase]
  · have hb : b = true := by
      rcases b with _ | _
      · exact absurd hcase (rowCountCheck_ne_some_false cfg rowCounts _ _)
      · rfl
    subst hb
    simp only [Bool.true_eq_false, false_iff, not_and]
    intro hle
    rw [← rowCountCheck_none_iff cfg rowCounts _ currentRowCount prevCount hrc
      hprev hpos] at hle
    rw [hcase] at hle
    exact absurd hle (by simp)

/-- Witness for C2: previous count 100, current 103 (3% ≤ 5%), both hashes
unchanged, default configuration — the decision is skip. -/
theorem shouldValidate_skip_correctness_witness :
    shouldValidate defaultSelectiveConfig [("bronze_orders", 100)]
      [("bronze_orders", some "s")] [("bronze_orders", some "d")]
      "bronze" "orders" 103 (some "s") (some "d") = false :=
  (shouldValidate_skip_correctness defaultSelectiveConfig
    [("bronze_orders", 100)] [("bronze_orders", some "s")]
    [("bronze_orders", some "d")] "bronze" "orders" 103 100
    (some "s") (some "d") (some "s") (some "d")
    rfl rfl rfl rfl rfl rfl (by norm_num) rfl rfl).mpr
    ⟨by norm_num [defaultSelectiveConfig], rfl, rfl⟩

/-- **C4** (counterexample): two consecutive data-hash failures for the same
key do lead to a skip decision.  The stored data hash is `None` (a previous
`_compute_data_hash` failure recorded by `_update_data_metadata`), the
current hash computation fails again (`None`), the row count and schema are
unchanged — `_should_validate` returns `False` because `None == None`
compares as unchanged. -/
theorem shouldValidate_consecutive_hash_failures_skip :
    shouldValidate defaultSelectiveConfig [("bronze_orders", 500)]
      [("bronze_orders", some "sh")] [("bronze_orders", none)]
      "bronze" "orders" 500 (some "sh") none = false := by
  have hrow : rowCountCheck defaultSelectiveConfig [("bronze_orders", 500)]
      (datasetKey "bronze" "orders") 500 = none := by
    rw [rowCountCheck_none_iff defaultSelectiveConfig [("bronze_orders", 500)]
      (datasetKey "bronze" "orders") 500 500 rfl rfl (by norm_num)]
    norm_num [defaultSelectiveConfig]
  unfold shouldValidate
  simp only [hrow]
  rfl

/-- **C4** (amended): a data-hash failure (`None`) compares as changed
against any stored *successful* signature, so the change detector forces
validation in that case; only a stored failure sentinel (`None` from an
earlier failed hash) compares as unchanged. -/
theorem shouldValidate_hash_failure_forces_validation (cfg : SelectiveConfig)
    (rowCounts : List (String × ℕ))
    (schemaHashes dataHashes : List (String × Option String))
    (layer dataset : String) (currentRowCount : ℕ)
    (currentSchemaHash : Option String) (h : String)
    (hen : cfg.enabled = true)
    (hdc : cfg.check_data_hash = true)
    (hpd : dataHashes.lookup (datasetKey layer dataset) = some (some h)) :
    shouldValidate cfg rowCounts schemaHashes dataHashes layer dataset
      currentRowCount currentSchemaHash none = true := by
  unfold shouldValidate
  rw [hen]
  simp only [Bool.not_true, Bool.false_eq_true, if_false]
  rcases hcase : rowCountCheck cfg rowCounts (datasetKey layer dataset)
      currentRowCount with _ | b
  · simp only [hpd, hdc]
    split
    · rfl
    · simp
  · rcases b with _ | _
    · exact absurd hcase (rowCountCheck_ne_some_false cfg rowCounts _ _)
    · rfl

/-- Witness for the amended C4: stored real hash `"d"`, current hash
computation failed (`None`) — validation is forced. -/
theorem shouldValidate_hash_failure_forces_validation_witness :
    shouldValidate defaultSelectiveConfig [("bronze_orders", 500)]
      [("bronze_orders", some "sh")] [("bronze_orders", some "d")]
      "bronze" "orders" 500 (some "sh") none = true :=
  shouldValidate_hash_failure_forces_validation defaultSelectiveConfig
    [("bronze_orders", 500)] [("bronze_orders", some "sh")]
    [("bronze_orders", some "d")] "bronze" "orders" 500 (some "sh") "d"
    rfl rfl (by decide)

/-- **C10** (zero-previous-row-count guard): when the stored row count for
the key is 0 (selective validation and the row-count check enabled),
`_should_validate` returns `True` immediately — for every state of the
schema/data hash stores and every current hash, so the division by the
previous row count is never evaluated and the hash comparisons are not
consulted. -/
theorem shouldValidate_zero_previous_count (cfg : SelectiveConfig)
    (rowCounts : List (String × ℕ))
    (schemaHashes dataHashes : List (String × Option String))
    (layer dataset : String) (currentRowCount : ℕ)
    (currentSchemaHash currentDataHash : Option String)
    (hen : cfg.enabled = true)
    (hrc : cfg.check_row_count_changes = true)
    (hzero : rowCounts.lookup (datasetKey layer dataset) = some 0) :
    shouldValidate cfg rowCounts schemaHashes dataHashes layer dataset
      currentRowCount currentSchemaHash currentDataHash = true := by
  unfold shouldValidate
  rw [hen]
  have hrow : rowCountCheck cfg rowCounts (datasetKey layer dataset)
      currentRowCount = some true := by
    unfold rowCountCheck
    rw [if_pos hrc, hzero]
    simp
  simp only [Bool.not_true, Bool.false_eq_true, if_false, hrow]

/-- Witness for C10: stored count 0 for the key, arbitrary hashes — decision
is validate. -/
theorem shouldValidate_zero_previous_count_witness :
    shouldValidate defaultSelectiveConfig [("silver_orders", 0)]
      [("silver_orders", some "a")] [("silver_orders", some "b")]
      "silver" "orders" 42 (some "x") (some "y") = true :=
  shouldValidate_zero_previous_count defaultSelectiveConfig
    [("silver_orders", 0)] [("silver_orders", some "a")]
    [("silver_orders", some "b")] "silver" "orders" 42 (some "x") (some "y")
    rfl rfl (by decide)

/-! ## Threshold evaluation (`AlertManager.check_thresholds`) -/

/-- The thresholds of one scope of `alert_thresholds` in the alert
configuration: `{success_rate, failed_validations, failed_expectations}`. -/
structure ScopeThresholds where
  success_rate : ℚ
  failed_validations : ℤ
  failed_expectations : ℤ
deriving Repr, DecidableEq

/-- The `alert_thresholds` section of the alert configuration.  In the
Python config this is a single dict whose keys are `"global"`, the layer
names, and `"datasets"`; `layers` here holds the layer-name entries, so
`name ∈ layers` models `name in self.config["alert_thresholds"]` for any
layer name other than the reserved keys `"global"` and `"datasets"`
(the only names the summary's `layers` map uses). -/
structure AlertThresholds where
  globalScope : ScopeThresholds
  layers : List (String × ScopeThresholds)
  datasets : List (String × ScopeThresholds)
deriving Repr, DecidableEq

/-- `DEFAULT_CONFIG["alert_thresholds"]` of `monitoring_alerts.py`. -/
def defaultAlertThresholds : AlertThresholds :=
  { globalScope := ⟨90, 3, 5⟩
    layers := [("bronze", ⟨85, 5, 10⟩), ("silver", ⟨90, 3, 7⟩),
               ("gold", ⟨95, 1, 3⟩)]
    datasets := [("user_activity", ⟨90, 2, 5⟩), ("orders", ⟨95, 1, 3⟩),
                 ("inventory", ⟨95, 1, 3⟩), ("dim_customer", ⟨98, 0, 1⟩),
                 ("dim_product", ⟨98, 0, 1⟩), ("fact_sales", ⟨98, 0, 1⟩),
                 ("kpi_revenue", ⟨100, 0, 0⟩)] }

/-- A per-layer entry of the validation summary (`summary["layers"][name]`):
only the `rate` and `failure` keys are read by `check_thresholds`. -/
structure LayerData where
  rate : ℚ
  failure : ℤ
deriving Repr, DecidableEq

/-- A per-dataset entry of the validation summary
(`summary["datasets"][name]`): the keys read by `check_thresholds`. -/
structure DatasetData where
  layer : String
  success : Bool
  success_rate : ℚ
  failed_expectations : ℤ
deriving Repr, DecidableEq

/-- The validation summary consumed by `check_thresholds`, as built by
`ValidationReporter` (`validation_reporting.py`, lines 77-89): global
`success_rate` and `failed_validations` counters plus the per-layer and
per-dataset maps.  The summary has no global or per-layer
failed-expectations counter. -/
structure Summary where
  success_rate : ℚ
  failed_validations : ℤ
  layers : List (String × LayerData)
  datasets : List (String × DatasetData)
deriving Repr, DecidableEq

/-- A threshold breach as appended by `check_thresholds`.  `btype` is the
`"type"` key of the breach dict; the free-text `description` key is
presentation-only and omitted; integer thresholds/actuals are coerced to
`ℚ` so that one field serves both the rate and the count breaches. -/
structure Breach where
  level : String
  btype : String
  threshold : ℚ
  actual : ℚ
  layer : String := ""
  dataset : String := ""
deriving Repr, DecidableEq

/-- The global block of `check_thresholds` (lines 305-324). -/
def globalBreaches (cfg : AlertThresholds) (s : Summary) : List Breach :=
  (if s.success_rate < cfg.globalScope.success_rate then
    [{ level := "global", btype := "success_rate",
       threshold := cfg.globalScope.success_rate, actual := s.success_rate }]
   else []) ++
  (if s.failed_validations > cfg.globalScope.failed_validations then
    [{ level := "global", btype := "failed_validations",
       threshold := (cfg.globalScope.failed_validations : ℚ),
       actual := (s.failed_validations : ℚ) }]
   else [])

/-- The per-layer block of `check_thresholds` (lines 326-349) for one
entry of `summary["layers"]`. -/
def layerBreaches (cfg : AlertThresholds) (name : String) (ld : LayerData) :
    List Breach :=
  match cfg.layers.lookup name with
  | none => []
  | some th =>
      (if ld.rate < th.success_rate then
        [{ level := "layer", layer := name, btype := "success_rate",
           threshold := th.success_rate, actual := ld.rate }]
       else []) ++
      (if ld.failure > th.failed_validations then
        [{ level := "layer", layer := name, btype := "failed_validations",
           threshold := (th.failed_validations : ℚ),
           actual := (ld.failure : ℚ) }]
       else [])

/-- The per-dataset block of `check_thresholds` (lines 351-387) for one
entry of `summary["datasets"]`. -/
def datasetBreaches (cfg : AlertThresholds) (name : String)
    (dd : DatasetData) : List Breach :=
  match cfg.datasets.lookup name with
  | none => []
  | some th =>
      (if dd.success_rate < th.success_rate then
        [{ level := "dataset", dataset := name, layer := dd.layer,
           btype := "success_rate", threshold := th.success_rate,
           actual := dd.success_rate }]
       else []) ++
      (if !dd.success && (th.failed_validations == 0) then
        [{ level := "dataset", dataset := name, layer := dd.layer,
           btype := "failed_validation",
           threshold := (th.failed_validations : ℚ), actual := 1 }]
       else []) ++
      (if dd.failed_expectations > th.failed_expectations then
        [{ level := "dataset", dataset := name, layer := dd.layer,
           btype := "failed_expectations",
           threshold := (th.failed_expectations : ℚ),
           actual := (dd.failed_expectations : ℚ) }]
       else [])

/-- Embedding of `AlertManager.check_thresholds`: the global block, then
the layer blocks in summary order, then the dataset blocks in summary
order; every matching breach is appended. -/
def checkThresholds (cfg : AlertThresholds) (s : Summary) : List Breach :=
  globalBreaches cfg s
    ++ (s.layers.flatMap fun p => layerBreaches cfg p.1 p.2)
    ++ (s.datasets.flatMap fun p => datasetBreaches cfg p.1 p.2)

/-- Membership in a conditional singleton pins the element down. -/
theorem eq_of_mem_ite_singleton {α : Type} {c : Prop} [Decidable c]
    {b x : α} (h : b ∈ if c then [x] else ([] : List α)) : b = x := by
  split at h <;> simp_all

/-- **C5** (zero tolerance): for every dataset with a configured rule whose
`failed_validations` threshold is 0 and whose outcome has `success = false`,
`check_thresholds` returns a dataset-scope validations-failed breach
(breach type `"failed_validation"`, actual 1) — regardless of the dataset's
success rate, which is universally quantified inside `dd`. -/
theorem checkThresholds_zero_tolerance (cfg : AlertThresholds) (s : Summary)
    (d : String) (dd : DatasetData) (th : ScopeThresholds)
    (hmem : (d, dd) ∈ s.datasets)
    (hrule : cfg.datasets.lookup d = some th)
    (hzero : th.failed_validations = 0)
    (hfail : dd.success = false) :
    ∃ b ∈ checkThresholds cfg s,
      b.level = "dataset" ∧ b.dataset = d ∧
        b.btype = "failed_validation" ∧ b.actual = 1 := by
  refine ⟨{ level := "dataset", dataset := d, layer := dd.layer,
            btype := "failed_validation",
            threshold := (th.failed_validations : ℚ), actual := 1 },
          ?_, rfl, rfl, rfl, rfl⟩
  unfold checkThresholds
  refine List.mem_append.mpr (Or.inr ?_)
  refine List.mem_flatMap.mpr ⟨(d, dd), hmem, ?_⟩
  unfold datasetBreaches
  rw [hrule]
  refine List.mem_append.mpr (Or.inl (List.mem_append.mpr (Or.inr ?_)))
  simp [hfail, hzero]

/-- Witness for C5: `kpi_revenue` has the rule `{failed_validations: 0}` in
the default configuration; a failed outcome yields the zero-tolerance
breach. -/
theorem checkThresholds_zero_tolerance_witness :
    ∃ b ∈ checkThresholds defaultAlertThresholds
        { success_rate := 100, failed_validations := 0, layers := [],
          datasets := [("kpi_revenue", ⟨"gold", false, 50, 0⟩)] },
      b.level = "dataset" ∧ b.dataset = "kpi_revenue" ∧
        b.btype = "failed_validation" ∧ b.actual = 1 :=
  checkThresholds_zero_tolerance defaultAlertThresholds
    { success_rate := 100, failed_validations := 0, layers := [],
      datasets := [("kpi_revenue", ⟨"gold", false, 50, 0⟩)] }
    "kpi_revenue" ⟨"gold", false, 50, 0⟩ ⟨100, 0, 0⟩
    (by simp) rfl rfl rfl

/-- A summary in which the only dataset has 100 failed expectations — far
above the global threshold (5) and every layer threshold — while all
success rates and failed-validation counters are clean. -/
def summaryOrdersOnly : Summary :=
  { success_rate := 100
    failed_validations := 0
    layers := [("bronze", ⟨100, 0⟩), ("silver", ⟨100, 0⟩), ("gold", ⟨100, 0⟩)]
    datasets := [("orders", ⟨"bronze", true, 100, 100⟩)] }

/-- **C3** (counterexample): the total failed-expectations count (100)
exceeds the global `failed_expectations` threshold (5) and the bronze layer
threshold (10), yet `check_thresholds` returns only the dataset-scope
breach: no global- or layer-scope failed-expectations breach exists in the
code (the summary does not even carry those counts). -/
theorem checkThresholds_no_global_failed_expectations :
    checkThresholds defaultAlertThresholds summaryOrdersOnly =
      [{ level := "dataset", dataset := "orders", layer := "bronze",
         btype := "failed_expectations", threshold := 3, actual := 100 }]
    ∧ summaryOrdersOnly.datasets.foldl
        (fun acc p => acc + p.2.failed_expectations) 0 = 100
    ∧ defaultAlertThresholds.globalScope.failed_expectations = 5 :=
  ⟨by decide, by decide, rfl⟩

/-- **C3** (amended): failed-expectations breaches exist only at dataset
scope.  For every dataset with a configured rule whose raw
failed-expectations count exceeds its threshold a dataset-scope breach is
in the returned list (all of them, since the existence proof works for
every such dataset entry); and conversely every failed-expectations breach
that `check_thresholds` returns is dataset-scoped — the global and layer
blocks never produce one. -/
theorem checkThresholds_failed_expectations_scope (cfg : AlertThresholds)
    (s : Summary) :
    (∀ d dd th, (d, dd) ∈ s.datasets → cfg.datasets.lookup d = some th →
        dd.failed_expectations > th.failed_expectations →
        ∃ b ∈ checkThresholds cfg s,
          b.level = "dataset" ∧ b.dataset = d ∧
            b.btype = "failed_expectations" ∧
            b.threshold = (th.failed_expectations : ℚ) ∧
            b.actual = (dd.failed_expectations : ℚ))
    ∧ ∀ b ∈ checkThresholds cfg s, b.btype = "failed_expectations" →
        b.level = "dataset" := by
  constructor
  · intro d dd th hmem hrule hgt
    refine ⟨{ level := "dataset", dataset := d, layer := dd.layer,
              btype := "failed_expectations",
              threshold := (th.failed_expectations : ℚ),
              actual := (dd.failed_expectations : ℚ) },
            ?_, rfl, rfl, rfl, rfl, rfl⟩
    unfold checkThresholds
    refine List.mem_append.mpr (Or.inr ?_)
    refine List.mem_flatMap.mpr ⟨(d, dd), hmem, ?_⟩
    unfold datasetBreaches
    rw [hrule]
    refine List.mem_append.mpr (Or.inr ?_)
    simp [hgt]
  · intro b hb hbt
    unfold checkThresholds at hb
    rcases List.mem_append.mp hb with hgl | hds
    · rcases List.mem_append.mp hgl with hg | hl
      · unfold globalBreaches at hg
        rcases List.mem_append.mp hg with h1 | h1 <;>
          · rw [eq_of_mem_ite_singleton h1] at hbt
            simp at hbt
      · obtain ⟨p, _, hbl⟩ := List.mem_flatMap.mp hl
        unfold layerBreaches at hbl
        rcases hlk : cfg.layers.lookup p.1 with _ | th <;> rw [hlk] at hbl
        · simp at hbl
        · rcases List.mem_append.mp hbl with h1 | h1 <;>
            · rw [eq_of_mem_ite_singleton h1] at hbt
              simp at hbt
    · obtain ⟨p, _, hbd⟩ := List.mem_flatMap.mp hds
      unfold datasetBreaches at hbd
      rcases hdk : cfg.datasets.lookup p.1 with _ | th <;> rw [hdk] at hbd
      · simp at hbd
      · rcases List.mem_append.mp hbd with h1 | h1
        · rcases List.mem_append.mp h1 with h2 | h2 <;>
            rw [eq_of_mem_ite_singleton h2]
        · rw [eq_of_mem_ite_singleton h1]

/-- Witness for the amended C3: `orders` with 10 failed expectations against
its rule (threshold 3) produces the dataset-scope breach. -/
theorem checkThresholds_failed_expectations_scope_witness :
    ∃ b ∈ checkThresholds defaultAlertThresholds
        { success_rate := 100, failed_validations := 0, layers := [],
          datasets := [("orders", ⟨"bronze", true, 100, 10⟩)] },
      b.level = "dataset" ∧ b.dataset = "orders" ∧
        b.btype = "failed_expectations" ∧
        b.threshold = ((3 : ℤ) : ℚ) ∧ b.actual = ((10 : ℤ) : ℚ) :=
  (checkThresholds_failed_expectations_scope defaultAlertThresholds
    { success_rate := 100, failed_validations := 0, layers := [],
      datasets := [("orders", ⟨"bronze", true, 100, 10⟩)] }).1
    "orders" ⟨"bronze", true, 100, 10⟩ ⟨95, 1, 3⟩ (by simp) rfl (by norm_num)

/-! ## Severity classification (`AlertManager.determine_severity`) -/

/-- The four alert severity levels, ordered
`critical > high > medium > low`. -/
inductive Severity where
  | low
  | medium
  | high
  | critical
deriving Repr, DecidableEq

/-- Rank of a classification result in the order
`critical > high > medium > low > none`. -/
def sevRank : Option Severity → ℕ
  | none => 0
  | some .low => 1
  | some .medium => 2
  | some .high => 3
  | some .critical => 4

/-- The breach-percentage thresholds of `alert_severity_levels` in the
alert configuration (one per level). -/
structure SeverityLevelsConfig where
  critical : ℚ
  high : ℚ
  medium : ℚ
  low : ℚ
deriving Repr, DecidableEq

/-- `DEFAULT_CONFIG["alert_severity_levels"]` thresholds. -/
def defaultSeverityLevels : SeverityLevelsConfig := ⟨95, 90, 80, 70⟩

/-- The breach-percentage loop of `determine_severity`
(`monitoring_alerts.py`, lines 409-418): over the `success_rate` breaches,
`percentage_below = ((threshold - actual) / threshold) * 100` and
`breach_percentage = max(breach_percentage, percentage_below)`, starting
from 0. -/
def breachPercentage (breaches : List Breach) : ℚ :=
  breaches.foldl
    (fun acc b =>
      if b.btype = "success_rate" then
        max acc ((b.threshold - b.actual) / b.threshold * 100)
      else acc) 0

/-- Modelled from the spec: the tail of `AlertManager.determine_severity`
(the selection of a severity level from the computed breach percentage) is
cut off in the source after `severity_levels = sel…`; per §4.7 of the spec
the highest severity level whose configured threshold is ≤ the maximum
breach percentage is picked, levels ordered critical > high > medium > low,
and no severity results when the maximum is below every level's
threshold. -/
def pickSeverity (levels : SeverityLevelsConfig) (p : ℚ) : Option Severity :=
  if levels.critical ≤ p then some .critical
  else if levels.high ≤ p then some .high
  else if levels.medium ≤ p then some .medium
  else if levels.low ≤ p then some .low
  else none

/-- Embedding of `AlertManager.determine_severity`: `None` on an empty
breach list (line 406), otherwise the severity picked from the maximum
percent-below of the success-rate breaches. -/
def determineSeverity (levels : SeverityLevelsConfig)
    (breaches : List Breach) : Option Severity :=
  if breaches.isEmpty then none
  else pickSeverity levels (breachPercentage breaches)

/-- The breach-percentage fold never decreases below its accumulator. -/
theorem breachPercentage_le_foldl (breaches : List Breach) (acc : ℚ) :
    acc ≤ breaches.foldl
      (fun acc b =>
        if b.btype = "success_rate" then
          max acc ((b.threshold - b.actual) / b.threshold * 100)
        else acc) acc := by
  induction breaches generalizing acc with
  | nil => exact le_refl acc
  | cons b bs ih =>
      refine le_trans ?_ (ih _)
      simp only
      split
      · exact le_max_left _ _
      · exact le_refl acc

/-- The computed breach percentage is never negative (it starts at 0 and
only grows by `max`). -/
theorem breachPercentage_nonneg (breaches : List Breach) :
    0 ≤ breachPercentage breaches :=
  breachPercentage_le_foldl breaches 0

/-- The severity selection is monotone in the breach percentage. -/
theorem pickSeverity_mono (levels : SeverityLevelsConfig) {p q : ℚ}
    (h : p ≤ q) :
    sevRank (pickSeverity levels p) ≤ sevRank (pickSeverity levels q) := by
  unfold pickSeverity
  split_ifs <;> simp_all [sevRank] <;> linarith

/-- **C6** (severity monotonicity): `determine_severity` computes the
maximum percent-below over the success-rate breaches (`breachPercentage`)
and picks the highest level whose threshold is ≤ that maximum
(`pickSeverity`); for two breach lists whose maxima satisfy `p1 < p2`, the
severity returned for the second is never lower in the order
critical > high > medium > low > none. -/
theorem determineSeverity_monotone (levels : SeverityLevelsConfig)
    (bs1 bs2 : List Breach)
    (h : breachPercentage bs1 < breachPercentage bs2) :
    sevRank (determineSeverity levels bs1)
      ≤ sevRank (determineSeverity levels bs2) := by
  unfold determineSeverity
  by_cases h2 : bs2.isEmpty
  · exfalso
    have hz : breachPercentage bs2 = 0 := by
      rcases bs2 with _ | ⟨b, bs⟩
      · rfl
      · simp at h2
    have := breachPercentage_nonneg bs1
    rw [hz] at h
    linarith
  · by_cases h1 : bs1.isEmpty
    · simp only [h1, if_true, h2, if_false, sevRank]
      exact Nat.zero_le _
    · simp only [h1, h2, if_false]
      exact pickSeverity_mono levels (le_of_lt h)

/-- Witness for C6: the empty breach list (percentage 0) against a single
success-rate breach at 100 percent below threshold — the first
classification (`none`, rank 0) is not above the second (`critical`,
rank 4). -/
theorem determineSeverity_monotone_witness :
    sevRank (determineSeverity defaultSeverityLevels [])
      ≤ sevRank (determineSeverity defaultSeverityLevels
        [{ level := "global", btype := "success_rate", threshold := 90,
           actual := 0 }]) :=
  determineSeverity_monotone defaultSeverityLevels _ _
    (by norm_num [breachPercentage])

/-! ## Alert-history pruning (`AlertManager._save_alert_history`) -/

/-- An alert-history record as persisted by `_save_alert_history`.  The
pruning logic reads only the `"timestamp"` key, via
`alert.get("timestamp", "0")` (so a record may lack it — `Option`); the
other persisted keys (breaches, severity, …) are opaque to the pruner. -/
structure AlertRecord where
  timestamp : Option String
deriving Repr, DecidableEq

/-- The max-entries trim of `_save_alert_history` (lines 274-275):
`self.alert_history = self.alert_history[-max_entries:]` when the history
is longer than `max_entries`.  Note the Python slice `[-0:]` equals
`[0:]` — with `max_entries = 0` the "trim" keeps the whole list. -/
def trimMaxEntries (maxEntries : ℕ) (history : List AlertRecord) :
    List AlertRecord :=
  if history.length > maxEntries then
    if maxEntries = 0 then history
    else history.drop (history.length - maxEntries)
  else history

/-- The retention trim of `_save_alert_history` (lines 277-282): when
`retention_days > 0`, keep the records whose timestamp string (default
`"0"`) is `≥` the cutoff ISO string.  `cutoffDate` stands for
`(now - timedelta(days=retention_days)).isoformat()`; ISO-8601 strings of
equal format compare chronologically, as the Python string comparison
assumes. -/
def trimRetention (retentionDays : ℕ) (cutoffDate : String)
    (history : List AlertRecord) : List AlertRecord :=
  if retentionDays > 0 then
    history.filter fun a => cutoffDate ≤ a.timestamp.getD "0"
  else history

/-- The pruning performed by every `_save_alert_history` call: the
max-entries trim, then the retention trim, in source order. -/
def pruneAlertHistory (maxEntries retentionDays : ℕ) (cutoffDate : String)
    (history : List AlertRecord) : List AlertRecord :=
  trimRetention retentionDays cutoffDate (trimMaxEntries maxEntries history)

/-- With a positive cap the max-entries trim really caps the length. -/
theorem trimMaxEntries_length (maxEntries : ℕ) (history : List AlertRecord)
    (hpos : maxEntries ≠ 0) :
    (trimMaxEntries maxEntries history).length ≤ maxEntries := by
  unfold trimMaxEntries
  rw [if_neg hpos]
  split
  · simp only [List.length_drop]
    omega
  · omega

/-- The max-entries trim keeps a suffix of the history (the most recent
records, the list being in append order). -/
theorem trimMaxEntries_eq_drop (maxEntries : ℕ) (history : List AlertRecord) :
    ∃ k, trimMaxEntries maxEntries history = history.drop k := by
  unfold trimMaxEntries
  split
  · split
    · exact ⟨0, rfl⟩
    · exact ⟨history.length - maxEntries, rfl⟩
  · exact ⟨0, rfl⟩

/-- **C8** (counterexample): with `max_entries = 0` (and retention
disabled) a save keeps a record: the Python slice `alert_history[-0:]` is
the whole list, so the stored history has 1 > 0 = `maxEntries` records. -/
theorem pruneAlertHistory_zero_cap_cex :
    (pruneAlertHistory 0 0 "2024-01-01" [⟨some "2025-06-01T00:00:00"⟩]).length
        = 1
    ∧ ¬ (pruneAlertHistory 0 0 "2024-01-01"
          [⟨some "2025-06-01T00:00:00"⟩]).length ≤ 0 := by
  constructor <;> decide

/-- **C8** (amended): for every save with `maxEntries ≥ 1`, the pruned
history has at most `maxEntries` records, is a retention-filtered suffix
of the pre-save history (so the records kept are the most recent ones),
and when `retentionDays > 0` every kept record's timestamp is at least the
cutoff; with `maxEntries = 0` the max-entries trim keeps everything
(Python `[-0:]`). -/
theorem pruneAlertHistory_invariant (maxEntries retentionDays : ℕ)
    (cutoffDate : String) (history : List AlertRecord)
    (hpos : 1 ≤ maxEntries) :
    (pruneAlertHistory maxEntries retentionDays cutoffDate history).length
        ≤ maxEntries
    ∧ (∃ k, pruneAlertHistory maxEntries retentionDays cutoffDate history =
        trimRetention retentionDays cutoffDate (history.drop k))
    ∧ (0 < retentionDays →
        ∀ a ∈ pruneAlertHistory maxEntries retentionDays cutoffDate history,
          cutoffDate ≤ a.timestamp.getD "0") := by
  have hne : maxEntries ≠ 0 := by omega
  refine ⟨?_, ?_, ?_⟩
  · unfold pruneAlertHistory trimRetention
    split
    · exact le_trans (List.length_filter_le _ _)
        (trimMaxEntries_length maxEntries history hne)
    · exact trimMaxEntries_length maxEntries history hne
  · obtain ⟨k, hk⟩ := trimMaxEntries_eq_drop maxEntries history
    exact ⟨k, by rw [pruneAlertHistory, hk]⟩
  · intro hrd a ha
    unfold pruneAlertHistory trimRetention at ha
    rw [if_pos hrd] at ha
    have := (List.mem_filter.mp ha).2
    exact of_decide_eq_true this

/-- Witness for the amended C8: cap 2, retention on, three records of which
one is stale — the save keeps at most 2 records, a suffix, all past the
cutoff. -/
theorem pruneAlertHistory_invariant_witness :
    ((pruneAlertHistory 2 90 "2025-03-01"
        [⟨some "2025-01-01"⟩, ⟨some "2025-04-01"⟩, ⟨some "2025-05-01"⟩]).length
        ≤ 2
    ∧ (∃ k, pruneAlertHistory 2 90 "2025-03-01"
          [⟨some "2025-01-01"⟩, ⟨some "2025-04-01"⟩, ⟨some "2025-05-01"⟩] =
        trimRetention 90 "2025-03-01"
          (([⟨some "2025-01-01"⟩, ⟨some "2025-04-01"⟩, ⟨some "2025-05-01"⟩] :
            List AlertRecord).drop k))
    ∧ (0 < 90 →
        ∀ a ∈ pruneAlertHistory 2 90 "2025-03-01"
            [⟨some "2025-01-01"⟩, ⟨some "2025-04-01"⟩, ⟨some "2025-05-01"⟩],
          "2025-03-01" ≤ a.timestamp.getD "0")) :=
  pruneAlertHistory_invariant 2 90 "2025-03-01"
    [⟨some "2025-01-01"⟩, ⟨some "2025-04-01"⟩, ⟨some "2025-05-01"⟩]
    (by norm_num)

/-! ## Result cache (`ValidationOptimizer._get_cached_result` /
`_cache_validation_result`) -/

/-- The `caching` section of the optimizer configuration. -/
structure CachingConfig where
  enabled : Bool
  ttl_seconds : ℚ
  max_cache_entries : ℕ
  cache_expectations : Bool
  cache_validation_results : Bool
deriving Repr, DecidableEq

/-- `DEFAULT_CONFIG["optimization"]["caching"]`. -/
def defaultCachingConfig : CachingConfig := ⟨true, 3600, 100, true, true⟩

/-- A cache entry: `{"timestamp": ..., "result": ...}` as read by
`_get_cached_result`.  The validation outcome type is abstract. -/
structure CacheEntry (α : Type) where
  timestamp : ℚ
  result : α
deriving Repr, DecidableEq

/-- The cache key `f"{layer}_{dataset}_{expectation_suite_name}"`. -/
def cacheKey (layer dataset suite : String) : String :=
  layer ++ "_" ++ dataset ++ "_" ++ suite

/-- Embedding of `_get_cached_result` (lines 376-405).  `now` models
`datetime.datetime.now().timestamp()`; an entry is expired (a miss) when
`now - timestamp > ttl_seconds`. -/
def getCachedResult {α : Type} (cfg : CachingConfig)
    (cache : List (String × CacheEntry α)) (now : ℚ)
    (layer dataset suite : String) : Option α :=
  if !cfg.enabled then none
  else
    match cache.lookup (cacheKey layer dataset suite) with
    | none => none
    | some entry =>
        if now - entry.timestamp > cfg.ttl_seconds then none
        else some entry.result

/-- Modelled from the spec: the body of `_cache_validation_result` past its
guard (the source file ends inside the method, line 419) is missing; per
§4.4 of the spec, `put` stores the outcome under the (layer, dataset,
suite) key with the put time, evicting the single oldest entry (the head
of the insertion-ordered list) when the store is at capacity.  The guard —
a no-op when caching or result caching is disabled — is in the source
(line 417). -/
def cacheValidationResult {α : Type} (cfg : CachingConfig)
    (cache : List (String × CacheEntry α)) (now : ℚ)
    (layer dataset suite : String) (result : α) :
    List (String × CacheEntry α) :=
  if !cfg.enabled || !cfg.cache_validation_results then cache
  else
    let evicted :=
      if cache.length ≥ cfg.max_cache_entries then cache.drop 1 else cache
    evicted.filter (fun p => p.1 ≠ cacheKey layer dataset suite)
      ++ [(cacheKey layer dataset suite, ⟨now, result⟩)]

/-- Looking up a key right after removing its old binding and appending a
fresh one finds the fresh binding. -/
theorem lookup_filterKey_append {β : Type} (l : List (String × β))
    (k : String) (e : β) :
    ((l.filter fun p => p.1 ≠ k) ++ [(k, e)]).lookup k = some e := by
  induction l with
  | nil => simp [List.lookup]
  | cons a l ih =>
      by_cases hk : a.1 = k
      · simpa [List.filter_cons, hk] using ih
      · have hba : (k == a.1) = false := by
          simp [Ne.symm hk]
        simpa [List.filter_cons, hk, List.lookup, hba] using ih

/-- **C7** (cache TTL): with caching (and result caching) enabled, a `put`
at time `t0` followed by a `get` at time `now` returns the cached outcome
when strictly less than `ttl_seconds` have elapsed, and a miss when more
than `ttl_seconds` have elapsed. -/
theorem cache_ttl {α : Type} (cfg : CachingConfig)
    (cache : List (String × CacheEntry α)) (t0 now : ℚ)
    (layer dataset suite : String) (result : α)
    (hen : cfg.enabled = true) (hcv : cfg.cache_validation_results = true) :
    (now - t0 < cfg.ttl_seconds →
      getCachedResult cfg
        (cacheValidationResult cfg cache t0 layer dataset suite result)
        now layer dataset suite = some result)
    ∧ (now - t0 > cfg.ttl_seconds →
      getCachedResult cfg
        (cacheValidationResult cfg cache t0 layer dataset suite result)
        now layer dataset suite = none) := by
  have hput : (cacheValidationResult cfg cache t0 layer dataset suite
      result).lookup (cacheKey layer dataset suite) =
        some ⟨t0, result⟩ := by
    unfold cacheValidationResult
    rw [hen, hcv]
    simp only [Bool.not_true, Bool.or_self, Bool.false_eq_true, if_false]
    exact lookup_filterKey_append _ _ _
  constructor <;> intro h <;> unfold getCachedResult <;>
    rw [hen] <;> simp only [Bool.not_true, Bool.false_eq_true, if_false, hput]
  · rw [if_neg (by simp only [not_lt]; linarith)]
  · rw [if_pos h]

/-- Witness for C7: a put at time 0 with the default configuration; a get
at time 10 (before the 3600-second TTL) hits with the cached value. -/
theorem cache_ttl_witness :
    ((10 : ℚ) - 0 < defaultCachingConfig.ttl_seconds →
      getCachedResult defaultCachingConfig
        (cacheValidationResult defaultCachingConfig
          ([] : List (String × CacheEntry ℕ)) 0 "bronze" "orders" "suite" 7)
        10 "bronze" "orders" "suite" = some 7)
    ∧ ((10 : ℚ) - 0 > defaultCachingConfig.ttl_seconds →
      getCachedResult defaultCachingConfig
        (cacheValidationResult defaultCachingConfig
          ([] : List (String × CacheEntry ℕ)) 0 "bronze" "orders" "suite" 7)
        10 "bronze" "orders" "suite" = none) :=
  cache_ttl defaultCachingConfig [] 0 10 "bronze" "orders" "suite" 7 rfl rfl

/-! ## Sampling selection (`ValidationOptimizer._apply_sampling`) -/

/-- The `sampling` section of the optimizer configuration. -/
structure SamplingConfig where
  enabled : Bool
  threshold_rows : ℕ
  sampling_method : String
  sample_size : ℚ
  min_sample_rows : ℕ
  stratify_columns : List String
deriving Repr, DecidableEq

/-- `DEFAULT_CONFIG["optimization"]["sampling"]`. -/
def defaultSamplingConfig : SamplingConfig :=
  ⟨true, 1000000, "random", 1 / 10, 100000, []⟩

/-- What `_apply_sampling` returns, up to the randomness of Spark's
`sample`/`sampleBy`: the full dataframe, an independent random sample at a
fraction, or a stratified sample over the valid stratify columns (the code
assigns every group the same capped fraction). -/
inductive SampleAction where
  | fullDataset
  | randomSample (fraction : ℚ)
  | stratifiedSample (columns : List String) (fraction : ℚ)
deriving Repr, DecidableEq

/-- Embedding of `_apply_sampling` (lines 312-374).  The dataframe is
represented by its row count and column list.  `actual_sample_size =
max(min_sample_rows, int(row_count * sample_size))` (Python `int` truncates
the non-negative product, i.e. floor) and `actual_fraction =
min(1.0, actual_sample_size / row_count)`.

The `systematic` branch executes `F.monotonically_increasing_id()` — but
the module never binds `F` (`pyspark.sql.functions` is not imported in
`validation_optimization.py`), so the branch raises `NameError` at
runtime; it is embedded as an error value. -/
def applySampling (cfg : SamplingConfig) (rowCount : ℕ)
    (columns : List String) : Except String SampleAction :=
  if !cfg.enabled then .ok .fullDataset
  else if rowCount ≤ cfg.threshold_rows then .ok .fullDataset
  else
    let actualSampleSize : ℕ :=
      max cfg.min_sample_rows (⌊(rowCount : ℚ) * cfg.sample_size⌋).toNat
    let actualFraction : ℚ :=
      min 1 ((actualSampleSize : ℚ) / (rowCount : ℚ))
    if cfg.sampling_method = "random" then .ok (.randomSample actualFraction)
    else if cfg.sampling_method = "systematic" then
      .error "NameError: name F is not defined"
    else if cfg.sampling_method = "stratified" then
      if cfg.stratify_columns = [] then .ok (.randomSample actualFraction)
      else
        let validColumns := cfg.stratify_columns.filter
          fun c => columns.contains c
        if validColumns = [] then .ok (.randomSample actualFraction)
        else .ok (.stratifiedSample validColumns actualFraction)
    else .ok (.randomSample actualFraction)

/-- **C9** (systematic sampling, code bug): for every dataset above the
sampling threshold with `sampling_method = "systematic"`, `_apply_sampling`
raises `NameError` instead of returning a systematic selection: the name
`F` (`pyspark.sql.functions`) is never imported by the module, so
`F.monotonically_increasing_id()` is unbound. -/
theorem applySampling_systematic_raises (cfg : SamplingConfig)
    (rowCount : ℕ) (columns : List String)
    (hen : cfg.enabled = true)
    (hm : cfg.sampling_method = "systematic")
    (hgt : cfg.threshold_rows < rowCount) :
    applySampling cfg rowCount columns =
      .error "NameError: name F is not defined" := by
  unfold applySampling
  rw [hen]
  simp only [Bool.not_true, Bool.false_eq_true, if_false]
  rw [if_neg (by omega), hm, if_neg (by decide), if_pos rfl]

/-- Witness for C9: default sampling configuration switched to
`systematic`, 2,000,000 rows (above the 1,000,000 threshold) — the call
errors. -/
theorem applySampling_systematic_raises_witness :
    applySampling
      ⟨true, 1000000, "systematic", 1 / 10, 100000, []⟩ 2000000 [] =
      .error "NameError: name F is not defined" :=
  applySampling_systematic_raises
    ⟨true, 1000000, "systematic", 1 / 10, 100000, []⟩ 2000000 []
    rfl rfl (by norm_num)

end Pipeline
